import Mathlib

/-!
Verification of the flowviz provider abstraction and streaming-normalization
gateway (`server/providers/` of davidljohnson/flowviz).

Each definition below is a shallow embedding of one JavaScript function of the
repository, translated branch-for-branch from the source:

* `base-provider.js` — canonical SSE event shapes (`sendSSE`, `sendProgress`,
  `sendError`, `sendContentDelta`, `sendSSEComplete`);
* `claude-provider.js` (ClaudeProvider) — `stream`, `analyzeVision`,
  `formatPrompt`, `buildVisionPrompt`, `buildMessageContent`;
* `openai-provider.js` (OpenAIProvider) — `stream`, `formatPrompt`,
  `getVisionModel`;
* `ollama-provider.js` (OllamaProvider) — `stream`, `analyzeVision`,
  `isConfigured`, `formatPrompt`;
* `provider-factory.js` (ProviderFactory) — `create`,
  `getAvailableProviders`, `getDefaultProvider`.

Network I/O is modelled by an explicit "upstream" datatype per provider,
enumerating the outcomes the underlying HTTP/stream library can deliver
(failed fetch, non-ok status, sequence of body chunks followed by `end` or
`error`, ...).  A provider's `stream` then becomes a pure function from the
upstream outcome to the ordered list of writes it performs on the caller's
response object `res`, paired with whether the call returns normally or
throws.  JavaScript truthiness on strings (empty string is falsy) is modelled
by `truthyS`; `String.prototype.substring(0, n)` by `jsSub`;
`toLowerCase().trim()` by `jsNormalize`; JSON parsing of an Ollama chunk is
abstracted by the `OllamaChunk` datatype (a chunk either parses to an object
with an optional `response` field and a `done` flag, or fails to parse).
-/

/-- JavaScript truthiness of a possibly-absent string value:
`undefined` and `""` are falsy, every other string is truthy. -/
def truthyS : Option String → Bool
  | none => false
  | some s => !(s == "")

/-- Model of JavaScript `s.toLowerCase().trim()` (as used by
`ProviderFactory.create` and `getDefaultProvider` on provider ids). -/
def jsNormalize (s : String) : String :=
  ⟨(((s.data.map Char.toLower).dropWhile Char.isWhitespace).reverse.dropWhile
      Char.isWhitespace).reverse⟩

/-- Model of JavaScript `s.substring(0, n)`: the first `n` characters. -/
def jsSub (s : String) (n : Nat) : String := ⟨s.data.take n⟩

/-- Model of JavaScript `a || b` for a possibly-absent string with a string
fallback (e.g. `process.env.ANTHROPIC_MODEL || 'claude-sonnet-4-5-20250929'`). -/
def orElseS (o : Option String) (fallback : String) : String :=
  match o with
  | some s => if s == "" then fallback else s
  | none => fallback

/-- The canonical provider-independent stream events of `base-provider.js`:
`sendProgress` emits `{type:'progress',stage,message}`, `sendContentDelta`
emits `{type:'content_block_delta',delta:{text}}`, `sendError` emits
`{type:'error',error}`, and `sendSSEComplete` emits the `[DONE]` sentinel. -/
inductive StreamEvent where
  | progress (stage message : String)
  | contentDelta (text : String)
  | error (message : String)
  | done
deriving DecidableEq

/-- One write performed on the caller's response object `res`: either a
canonical event produced through the `base-provider.js` helpers, or a raw
pass-through of upstream bytes via a bare `res.write(data)`. -/
inductive SinkWrite where
  | event (e : StreamEvent)
  | raw (data : String)
deriving DecidableEq

/-- Whether `stream()` returned normally or threw/rejected. -/
inductive StreamOutcome where
  | ok
  | threw (msg : String)
deriving DecidableEq

/-- The observable effect of one `stream()` call: the ordered writes into the
caller's sink and the call outcome. -/
structure StreamRun where
  writes : List SinkWrite
  outcome : StreamOutcome
deriving DecidableEq

/-- A terminal marker: the `[DONE]` sentinel or an `error` event. -/
def isTerminalW : SinkWrite → Bool
  | .event .done => true
  | .event (.error _) => true
  | _ => false

/-- No write in the list is a terminal marker. -/
def noTerminal (ws : List SinkWrite) : Bool := ws.all (fun w => !isTerminalW w)

/-- A write is one of the four canonical `StreamEvent` shapes (as opposed to a
raw pass-through of provider-native bytes). -/
def isCanonicalW : SinkWrite → Bool
  | .event _ => true
  | .raw _ => false

/-- The write sequence ends in exactly one terminal sequence: a run of
non-terminal writes followed by either `[done]` alone or an `error` event
immediately followed by `[done]`; no other terminal marker occurs. -/
def terminalOk : List SinkWrite → Bool
  | [] => false
  | [.event .done] => true
  | [.event (.error _), .event .done] => true
  | w :: rest => !isTerminalW w && terminalOk rest

/-- How the upstream Anthropic streaming request can unfold, as observed by
`ClaudeProvider.stream`: the `fetch` itself rejects; the response is non-ok
(its error body is read and thrown); the response has no body; or the body
delivers a list of `data` chunks and then fires `end` or `error`. -/
inductive ClaudeBodyEnd where
  | ended
  | errored (msg : String)
deriving DecidableEq

inductive ClaudeUpstream where
  | fetchFail (msg : String)
  | notOk (errBody : String)
  | noBody
  | body (chunks : List String) (e : ClaudeBodyEnd)
deriving DecidableEq

/-- `ClaudeProvider.stream` (claude-provider.js): non-streaming failures throw
without writing; each body `data` chunk is written RAW to `res`
(`res.write(data)`); on `end` it sends the `[DONE]` sentinel and resolves; on
body `error` it sends an `error` event, then `[DONE]`, then rejects. -/
def claudeStream : ClaudeUpstream → StreamRun
  | .fetchFail m => ⟨[], .threw m⟩
  | .notOk b => ⟨[], .threw ("Claude API error: " ++ b)⟩
  | .noBody => ⟨[], .threw "No response body available from Claude API"⟩
  | .body cs .ended => ⟨cs.map SinkWrite.raw ++ [.event .done], .ok⟩
  | .body cs (.errored m) =>
      ⟨cs.map SinkWrite.raw ++ [.event (.error m), .event .done], .threw m⟩

/-- One chunk of the OpenAI streaming iterator, as consumed by
`OpenAIProvider.stream`: `chunk.choices[0]?.delta?.content` (absent or a
string) and whether `chunk.choices[0]?.finish_reason === 'stop'`. -/
structure OpenAIChunk where
  delta : Option String
  finishStop : Bool
deriving DecidableEq

/-- How the upstream OpenAI call can unfold: the `create` call itself throws;
the iterator yields chunks and completes; or it yields some chunks and then
throws mid-iteration. -/
inductive OpenAIUpstream where
  | createFail (msg : String)
  | chunks (cs : List OpenAIChunk)
  | chunksThenFail (cs : List OpenAIChunk) (msg : String)
deriving DecidableEq

/-- The `for await` loop body of `OpenAIProvider.stream`: a truthy delta is
sent as a `contentDelta` event; a `'stop'` finish reason breaks the loop.
Returns the writes performed and whether the loop broke early. -/
def openaiProcess : List OpenAIChunk → List SinkWrite × Bool
  | [] => ([], false)
  | c :: rest =>
    let w := match c.delta with
      | some d => if d == "" then [] else [SinkWrite.event (.contentDelta d)]
      | none => []
    if c.finishStop then (w, true)
    else
      let p := openaiProcess rest
      (w ++ p.1, p.2)

/-- `OpenAIProvider.stream` (openai-provider.js): the whole exchange sits in a
`try` block ending in `sendSSEComplete`; the `catch` sends an `error` event,
then `[DONE]`, then rethrows.  A mid-iteration failure is only observed if the
loop did not already break on a `'stop'` finish reason. -/
def openaiStream : OpenAIUpstream → StreamRun
  | .createFail m => ⟨[.event (.error m), .event .done], .threw m⟩
  | .chunks cs => ⟨(openaiProcess cs).1 ++ [.event .done], .ok⟩
  | .chunksThenFail cs m =>
    if (openaiProcess cs).2 then ⟨(openaiProcess cs).1 ++ [.event .done], .ok⟩
    else ⟨(openaiProcess cs).1 ++ [.event (.error m), .event .done], .threw m⟩

/-- One raw chunk of the Ollama response body as seen by the `data` handler of
`OllamaProvider.stream`: `JSON.parse` either succeeds, yielding an object with
an optional truthy `response` string and a truthy-or-not `done` flag, or
throws, in which case the raw chunk text is kept. -/
inductive OllamaChunk where
  | parsed (response : Option String) (doneFlag : Bool)
  | unparsable (data : String)
deriving DecidableEq

inductive OllamaUpstreamEnd where
  | ended
  | errored (msg : String)
deriving DecidableEq

/-- How the upstream Ollama call can unfold: a non-ok response (its error body
is read), or a body delivering chunks and then firing `end` or `error`. -/
inductive OllamaUpstream where
  | notOk (errBody : String)
  | body (chunks : List OllamaChunk) (e : OllamaUpstreamEnd)
deriving DecidableEq

/-- The writes the `data` handler of `OllamaProvider.stream` performs for one
chunk: on parse success, a truthy `response` field becomes a `contentDelta`
and a truthy `done` field triggers the `[DONE]` sentinel; on parse failure the
raw chunk is forwarded as-is (`res.write(data)`). -/
def ollamaChunkWrites : OllamaChunk → List SinkWrite
  | .parsed r d =>
    (match r with
      | some s => if s == "" then [] else [SinkWrite.event (.contentDelta s)]
      | none => []) ++ (if d then [SinkWrite.event .done] else [])
  | .unparsable s => [.raw s]

/-- Whether some chunk carried a truthy `done` flag (in which case the promise
already resolved before the `error` handler could reject it). -/
def ollamaResolvedMid (cs : List OllamaChunk) : Bool :=
  cs.any (fun c => match c with | .parsed _ d => d | .unparsable _ => false)

/-- `OllamaProvider.stream` (ollama-provider.js): on a non-ok response it
sends an `error` event and returns (no `[DONE]`); otherwise every chunk is
handled by `ollamaChunkWrites`; the `end` handler resolves WITHOUT writing;
the `error` handler sends `error` then `[DONE]` and rejects (a no-op when the
promise already resolved on a mid-stream `done` chunk). -/
def ollamaStream : OllamaUpstream → StreamRun
  | .notOk b => ⟨[.event (.error b)], .ok⟩
  | .body cs .ended => ⟨(cs.map ollamaChunkWrites).flatten, .ok⟩
  | .body cs (.errored m) =>
    ⟨(cs.map ollamaChunkWrites).flatten ++ [.event (.error m), .event .done],
     if ollamaResolvedMid cs then .ok else .threw m⟩

/-- The fixed instruction block of `ClaudeProvider.formatPrompt`
(claude-provider.js), verbatim, up to and including `Article: "`. -/
def claudePromptHead : String :=
  "You are an expert in cyber threat intelligence and MITRE ATT&CK. Analyze this article and create React Flow nodes and edges directly.\n\nIMPORTANT: Return only a valid JSON object with \"nodes\" and \"edges\" arrays. No text before or after.\n\nNode types you can use:\n- action: MITRE ATT&CK techniques (must include technique_id like T1190)\n- tool: Legitimate software used in attack\n- malware: Malicious software\n- asset: Target systems/resources\n- infrastructure: C2 servers, domains, IPs\n- url: Web resources referenced\n- vulnerability: CVEs or specific vulnerabilities\n- AND_operator: Logical AND gate (attack requires multiple conditions)\n- OR_operator: Logical OR gate (attack can follow multiple paths)\n\nEdge types (relationship labels):\n- \"Uses\", \"Targets\", \"Communicates with\", \"Connects to\", \"Affects\", \"Leads to\"\n\nRequirements:\n1. Each node MUST have: id (unique), type, data.label, data.description\n2. Action nodes MUST have: data.technique_id (e.g., \"T1190\"), data.tactic (e.g., \"Initial Access\")\n3. All nodes should include: data.source_excerpt (relevant quote from article), data.confidence (\"low\", \"medium\", \"high\")\n4. Use chronological ordering when possible\n5. Create edges that show attack progression\n6. Include operator nodes (AND/OR) for complex logic\n7. Extract specific technical indicators (IPs, domains, file hashes, commands)\n\nExample output format:\n\x7b\n  \"nodes\": [\n    \x7b\n      \"id\": \"action-1\",\n      \"type\": \"action\",\n      \"data\": \x7b\n        \"label\": \"Exploit Public-Facing Application\",\n        \"description\": \"Attacker exploited vulnerable web server\",\n        \"technique_id\": \"T1190\",\n        \"tactic\": \"Initial Access\",\n        \"source_excerpt\": \"Quote from article...\",\n        \"confidence\": \"high\"\n      \x7d\n    \x7d,\n    \x7b\n      \"id\": \"tool-1\",\n      \"type\": \"tool\",\n      \"data\": \x7b\n        \"label\": \"Metasploit\",\n        \"description\": \"Used for exploitation\",\n        \"source_excerpt\": \"Quote from article...\",\n        \"confidence\": \"medium\"\n      \x7d\n    \x7d\n  ],\n  \"edges\": [\n    \x7b\n      \"id\": \"edge-1\",\n      \"source\": \"action-1\",\n      \"target\": \"tool-1\",\n      \"type\": \"floating\",\n      \"label\": \"Uses\"\n    \x7d\n  ]\n\x7d\n\nArticle: \""

/-- The fixed instruction block of `OpenAIProvider.formatPrompt`
(openai-provider.js), verbatim, up to and including `Article: "` (it differs
from the Claude block: `data.name` instead of `data.label`). -/
def openaiPromptHead : String :=
  "You are an expert in cyber threat intelligence and MITRE ATT&CK. Analyze this article and create React Flow nodes and edges directly.\n\nIMPORTANT: Return only a valid JSON object with \"nodes\" and \"edges\" arrays. No text before or after.\n\nNode types you can use:\n- action: MITRE ATT&CK techniques (must include technique_id like T1190)\n- tool: Legitimate software used in attack\n- malware: Malicious software\n- asset: Target systems/resources\n- infrastructure: C2 servers, domains, IPs\n- url: Web resources referenced\n- vulnerability: CVEs or specific vulnerabilities\n- AND_operator: Logical AND gate (attack requires multiple conditions)\n- OR_operator: Logical OR gate (attack can follow multiple paths)\n\nEdge types (relationship labels):\n- \"Uses\", \"Targets\", \"Communicates with\", \"Connects to\", \"Affects\", \"Leads to\"\n\nRequirements:\n1. Each node MUST have: id (unique), type, data.name, data.description\n2. Action nodes MUST have: data.technique_id (e.g., \"T1190\"), data.tactic (e.g., \"Initial Access\")\n3. All nodes should include: data.source_excerpt (relevant quote from article), data.confidence (\"low\", \"medium\", \"high\")\n4. Use chronological ordering when possible\n5. Create edges that show attack progression\n6. Include operator nodes (AND/OR) for complex logic\n7. Extract specific technical indicators (IPs, domains, file hashes, commands)\n\nExample output format:\n\x7b\n  \"nodes\": [\n    \x7b\n      \"id\": \"action-1\",\n      \"type\": \"action\",\n      \"data\": \x7b\n        \"name\": \"Exploit Public-Facing Application\",\n        \"description\": \"Attacker exploited vulnerable web server\",\n        \"technique_id\": \"T1190\",\n        \"tactic\": \"Initial Access\",\n        \"source_excerpt\": \"Quote from article...\",\n        \"confidence\": \"high\"\n      \x7d\n    \x7d,\n    \x7b\n      \"id\": \"tool-1\",\n      \"type\": \"tool\",\n      \"data\": \x7b\n        \"name\": \"Metasploit\",\n        \"description\": \"Used for exploitation\",\n        \"source_excerpt\": \"Quote from article...\",\n        \"confidence\": \"medium\"\n      \x7d\n    \x7d\n  ],\n  \"edges\": [\n    \x7b\n      \"id\": \"edge-1\",\n      \"source\": \"action-1\",\n      \"target\": \"tool-1\",\n      \"type\": \"floating\",\n      \"label\": \"Uses\"\n    \x7d\n  ]\n\x7d\n\nArticle: \""

/-- The fixed instruction block of `OllamaProvider.formatPrompt`
(ollama-provider.js), verbatim, up to and including `Article: "`. -/
def ollamaPromptHead : String :=
  "You are an expert in cyber threat intelligence and MITRE ATT&CK. Analyze this article and create React Flow nodes and edges directly.\n\nIMPORTANT: Return only a valid JSON object with \"nodes\" and \"edges\" arrays. No text before or after.\n\nNode types you can use:\n- action: MITRE ATT&CK techniques (must include technique_id like T1190)\n- tool: Legitimate software used in attack\n- malware: Malicious software\n- asset: Target systems/resources\n- infrastructure: C2 servers, domains, IPs\n- url: Web resources referenced\n- vulnerability: CVEs or specific vulnerabilities\n- AND_operator: Logical AND gate (attack requires multiple conditions)\n- OR_operator: Logical OR gate (attack can follow multiple paths)\n\nEdge types (relationship labels):\n- \"Uses\", \"Targets\", \"Communicates with\", \"Connects to\", \"Affects\", \"Leads to\"\n\nRequirements:\n1. Each node MUST have: id (unique), type, data.name, data.description\n2. Action nodes MUST have: data.technique_id (e.g., \"T1190\"), data.tactic (e.g., \"Initial Access\")\n3. All nodes should include: data.source_excerpt (relevant quote from article), data.confidence (\"low\", \"medium\", \"high\")\n4. Use chronological ordering when possible\n5. Create edges that show attack progression\n6. Include operator nodes (AND/OR) for complex logic\n7. Extract specific technical indicators (IPs, domains, file hashes, commands)\n\nExample output format:\n\x7b\n  \"nodes\": [\n    \x7b\n      \"id\": \"action-1\",\n      \"type\": \"action\",\n      \"data\": \x7b\n        \"name\": \"Exploit Public-Facing Application\",\n        \"description\": \"Attacker exploited vulnerable web server\",\n        \"technique_id\": \"T1190\",\n        \"tactic\": \"Initial Access\",\n        \"source_excerpt\": \"Quote from article. ..\",\n        \"confidence\": \"high\"\n      \x7d\n    \x7d,\n    \x7b\n      \"id\": \"tool-1\",\n      \"type\": \"tool\",\n      \"data\": \x7b\n        \"name\": \"Metasploit\",\n        \"description\": \"Used for exploitation\",\n        \"source_excerpt\": \"Quote from article. ..\",\n        \"confidence\": \"medium\"\n      \x7d\n    \x7d\n  ],\n  \"edges\": [\n    \x7b\n      \"id\": \"edge-1\",\n      \"source\": \"action-1\",\n      \"target\": \"tool-1\",\n      \"type\": \"floating\",\n      \"label\": \"Uses\"\n    \x7d\n  ]\n\x7d\n\nArticle: \""

/-- The text following the embedded article in all three `formatPrompt`
templates: the closing quote and the trailing `Article text:` line. -/
def promptTail : String := "\"\n\nArticle text:\n"

/-- The `finalText` computation shared verbatim by all three providers'
`formatPrompt`: when `visionAnalysis` is truthy, the vision text is prepended
to the article text under the two fixed section headers. -/
def finalTextOf (text : String) (visionAnalysis : Option String) : String :=
  match visionAnalysis with
  | some v =>
    if v == "" then text
    else "## Image Analysis Results\n\n" ++ v ++ "\n\n## Article Text\n\n" ++ text
  | none => text

/-- `ClaudeProvider.formatPrompt`: one prompt string embedding
`finalText.substring(0, 50000)`. The `system` argument does not enter the
prompt string (it is sent as the separate `system` request field). -/
def claudeFormatPrompt (text : String) (visionAnalysis : Option String) : String :=
  claudePromptHead ++ jsSub (finalTextOf text visionAnalysis) 50000 ++ promptTail

/-- The user-message content built by `OpenAIProvider.formatPrompt`. -/
def openaiUserPrompt (text : String) (visionAnalysis : Option String) : String :=
  openaiPromptHead ++ jsSub (finalTextOf text visionAnalysis) 50000 ++ promptTail

/-- One chat message of the OpenAI message list. -/
structure ChatMessage where
  role : String
  content : String
deriving DecidableEq

/-- `OpenAIProvider.formatPrompt`: a system message (the caller-supplied
system prompt, or the fixed persona fallback) followed by the user message. -/
def openaiFormatPrompt (text : String) (visionAnalysis : Option String)
    (system : Option String) : List ChatMessage :=
  [⟨"system", orElseS system "You are an expert in cyber threat intelligence analysis."⟩,
   ⟨"user", openaiUserPrompt text visionAnalysis⟩]

/-- `OllamaProvider.formatPrompt`: one prompt string embedding
`finalText.substring(0, 50000)`. -/
def ollamaFormatPrompt (text : String) (visionAnalysis : Option String) : String :=
  ollamaPromptHead ++ jsSub (finalTextOf text visionAnalysis) 50000 ++ promptTail

/-- One element of the `images` array handed to `analyzeVision`. -/
structure ImageItem where
  base64Data : Option String
  mediaType : Option String
deriving DecidableEq

/-- The `images` argument of `analyzeVision` as a JavaScript caller can pass
it: absent/null, present but not an array, or an actual array. -/
inductive ImagesArg where
  | absent
  | notArray
  | arr (images : List ImageItem)
deriving DecidableEq

/-- `ClaudeProvider.buildVisionPrompt` (identical in openai-provider.js):
the vision instruction text, embedding the image count and
`articleText.substring(0, 1000)`. -/
def buildVisionPrompt (articleText : String) (imageCount : Nat) : String :=
  "You are analyzing " ++ toString imageCount ++ " images from a cybersecurity article to enhance threat intelligence analysis.\n\nArticle context (first 1000 chars):\n" ++ jsSub articleText 1000 ++ "...\n\nPlease analyze the images and provide:\n1. Technical details visible in screenshots (commands, file paths, network indicators)\n2. Attack techniques or tools shown\n3. Any MITRE ATT&CK relevant information\n4. System configurations or vulnerabilities displayed\n\nFocus on actionable technical intelligence that supplements the article text."

/-- One content item of the Claude vision message. -/
inductive ClaudeContentItem where
  | text (t : String)
  | image (mediaType : String) (base64Data : String)
deriving DecidableEq

/-- `ClaudeProvider.buildMessageContent`: the prompt text first, then one
image item per array element whose `base64Data` and `mediaType` are truthy. -/
def buildMessageContent (images : List ImageItem) (prompt : String) :
    List ClaudeContentItem :=
  ClaudeContentItem.text prompt ::
    images.filterMap (fun img =>
      if truthyS img.base64Data && truthyS img.mediaType then
        some (.image (img.mediaType.getD "") (img.base64Data.getD ""))
      else none)

/-- The request `ClaudeProvider.analyzeVision` issues to the backend when its
input validation passes (the network response itself is not modelled). -/
structure ClaudeVisionCall where
  model : String
  maxTokens : Nat
  content : List ClaudeContentItem
deriving DecidableEq

/-- `ClaudeProvider.analyzeVision`: throws `'Missing or invalid images array'`
before any network activity when `images` is falsy, not an array, or empty;
otherwise builds the vision prompt (caller-supplied `prompt` if truthy, else
`buildVisionPrompt`) and issues one `messages.create` call. -/
def claudeAnalyzeVision (model : String) (images : ImagesArg)
    (articleText : String) (prompt : Option String) :
    Except String ClaudeVisionCall :=
  match images with
  | .absent => .error "Missing or invalid images array"
  | .notArray => .error "Missing or invalid images array"
  | .arr imgs =>
    if imgs.length == 0 then .error "Missing or invalid images array"
    else
      let visionPrompt :=
        match prompt with
        | some p => if p == "" then buildVisionPrompt articleText imgs.length else p
        | none => buildVisionPrompt articleText imgs.length
      .ok ⟨model, 4000, buildMessageContent imgs visionPrompt⟩

inductive Confidence where
  | low
  | medium
  | high
deriving DecidableEq

/-- The result shape of `analyzeVision` (`tokensUsed` and `confidence` are
optional fields; the Claude path sets `tokensUsed`, the Ollama placeholder
sets `confidence`). -/
structure VisionResult where
  analysisText : String
  tokensUsed : Option Nat
  confidence : Option Confidence
deriving DecidableEq

/-- `OllamaProvider.analyzeVision` (ollama-provider.js): a pure placeholder —
no validation, no network call, no failure; it logs a warning and returns the
fixed low-confidence result for every input. -/
def ollamaAnalyzeVision (images : ImagesArg) (articleText : String) :
    VisionResult :=
  ⟨"Vision analysis is not supported with the current Ollama configuration.",
   none, some .low⟩

/-- The environment variables read by this core (absent = `undefined`). -/
structure Env where
  anthropicApiKey : Option String
  openaiApiKey : Option String
  anthropicModel : Option String
  openaiModel : Option String
  defaultAiProvider : Option String
  ollamaTextModel : Option String
  ollamaVisionModel : Option String
deriving DecidableEq

/-- The empty environment: nothing configured. -/
def baseEnv : Env := ⟨none, none, none, none, none, none, none⟩

/-- `OllamaProvider.isConfigured` (ollama-provider.js): false when the base
URL is falsy; otherwise requires `OLLAMA_TEXT_MODEL` or `OLLAMA_VISION_MODEL`
to be truthy in the environment.  No API key is involved. -/
def ollamaIsConfigured (baseUrl : Option String) (env : Env) : Bool :=
  if !truthyS baseUrl then false
  else truthyS env.ollamaTextModel || truthyS env.ollamaVisionModel

/-- `OpenAIProvider.getVisionModel`: the fixed vision-capable allow-list. -/
def openaiVisionModels : List String :=
  ["gpt-4o", "gpt-4o-2024-11-20", "gpt-4-turbo", "gpt-4-turbo-2024-04-09"]

/-- `OpenAIProvider.getVisionModel` (openai-provider.js): the configured model
when it is in the allow-list, `'gpt-4o'` otherwise. -/
def getVisionModel (model : String) : String :=
  if openaiVisionModels.contains model then model else "gpt-4o"

/-- `ClaudeProvider.getSupportedModels`. -/
def claudeSupportedModels : List String :=
  ["claude-sonnet-4-5-20250929", "claude-3-5-sonnet-20241022",
   "claude-opus-4-20250514", "claude-3-opus-20240229"]

/-- `OpenAIProvider.getSupportedModels`. -/
def openaiSupportedModels : List String :=
  ["gpt-4o", "gpt-4o-2024-11-20", "gpt-4o-mini", "o1", "o1-preview", "o1-mini",
   "gpt-4-turbo", "gpt-4-turbo-2024-04-09", "gpt-4", "gpt-4-0125-preview"]

/-- One entry of `ProviderFactory.getAvailableProviders`. -/
structure ProviderDescriptor where
  id : String
  name : String
  displayName : String
  models : List String
  defaultModel : String
  configured : Bool
deriving DecidableEq

/-- `ProviderFactory.getAvailableProviders` (provider-factory.js): the
Anthropic entry when `ANTHROPIC_API_KEY` is truthy, then the OpenAI entry when
`OPENAI_API_KEY` is truthy; both always carry `configured: true`.  No Ollama
entry exists in this function. -/
def getAvailableProviders (env : Env) : List ProviderDescriptor :=
  (if truthyS env.anthropicApiKey then
    [{ id := "anthropic", name := "Anthropic", displayName := "Anthropic",
       models := claudeSupportedModels,
       defaultModel := orElseS env.anthropicModel "claude-sonnet-4-5-20250929",
       configured := true }]
   else [])
  ++ (if truthyS env.openaiApiKey then
    [{ id := "openai", name := "OpenAI", displayName := "OpenAI",
       models := openaiSupportedModels,
       defaultModel := orElseS env.openaiModel "gpt-4o",
       configured := true }]
   else [])

/-- The explicit-override branch of `ProviderFactory.getDefaultProvider`: when
`DEFAULT_AI_PROVIDER` is truthy and normalizes to a supported alias, the
corresponding id is returned immediately — without any configuration check. -/
def explicitDefault (env : Env) : Option String :=
  if truthyS env.defaultAiProvider then
    let n := jsNormalize (env.defaultAiProvider.getD "")
    if n == "openai" || n == "gpt" then some "openai"
    else if n == "anthropic" || n == "claude" then some "anthropic"
    else none
  else none

/-- `ProviderFactory.getDefaultProvider` (provider-factory.js): the explicit
override when it names a supported backend, otherwise the id of the first
available provider, otherwise null. -/
def getDefaultProvider (env : Env) : Option String :=
  match explicitDefault env with
  | some p => some p
  | none => (getAvailableProviders env).head?.map (fun d => d.id)

/-- The configuration `getAvailableProviders` requires of a provider id: the
matching API key is truthy in the environment (the listing's guard). -/
def apiKeyConfigured (env : Env) (id : String) : Bool :=
  if id == "anthropic" then truthyS env.anthropicApiKey
  else if id == "openai" then truthyS env.openaiApiKey
  else false

/-- The config argument of `ProviderFactory.create`. -/
structure ProviderConfig where
  apiKey : Option String
  model : Option String
  baseUrl : Option String
deriving DecidableEq

/-- A constructed provider instance as far as `getName()` is concerned: the
constructors of ClaudeProvider and OpenAIProvider pass fixed `providerName`
values (`'Claude'`, `'OpenAI'`) to the `BaseProvider` constructor. -/
structure CreatedProvider where
  providerName : String
  config : ProviderConfig
deriving DecidableEq

/-- `ProviderFactory.create` (provider-factory.js): case-insensitive,
alias-tolerant dispatch; unknown ids throw. -/
def create (providerName : String) (config : ProviderConfig) :
    Except String CreatedProvider :=
  let normalized := jsNormalize providerName
  if normalized == "anthropic" || normalized == "claude" then
    .ok ⟨"Claude", config⟩
  else if normalized == "openai" || normalized == "gpt" then
    .ok ⟨"OpenAI", config⟩
  else
    .error ("Unknown provider: " ++ providerName ++
      ". Supported: anthropic, claude, openai, gpt")

/-- `BaseProvider.getName` (base-provider.js). -/
def getName (p : CreatedProvider) : String := p.providerName

theorem noTerminal_cons (w : SinkWrite) (l : List SinkWrite) :
    noTerminal (w :: l) = (!isTerminalW w && noTerminal l) := by
  simp [noTerminal]

theorem noTerminal_append (a b : List SinkWrite) :
    noTerminal (a ++ b) = (noTerminal a && noTerminal b) := by
  simp [noTerminal]

theorem terminalOk_cons_of_nonterminal (w : SinkWrite) (l : List SinkWrite)
    (h : isTerminalW w = false) (hl : l ≠ []) :
    terminalOk (w :: l) = terminalOk l := by
  match l, hl with
  | x :: xs, _ =>
    match w, h with
    | .raw s, _ => rfl
    | .event (.progress a b), _ => rfl
    | .event (.contentDelta t), _ => rfl
    | .event (.error m), hm => simp [isTerminalW] at hm
    | .event .done, hm => simp [isTerminalW] at hm

theorem terminalOk_append_done :
    ∀ ws : List SinkWrite, noTerminal ws = true →
      terminalOk (ws ++ [SinkWrite.event .done]) = true
  | [], _ => rfl
  | w :: ws, h => by
    rw [noTerminal_cons, Bool.and_eq_true, Bool.not_eq_true'] at h
    rw [List.cons_append,
      terminalOk_cons_of_nonterminal w _ h.1 (by simp),
      terminalOk_append_done ws h.2]

theorem terminalOk_append_error_done :
    ∀ (ws : List SinkWrite) (m : String), noTerminal ws = true →
      terminalOk (ws ++ [SinkWrite.event (.error m), SinkWrite.event .done]) = true
  | [], _, _ => rfl
  | w :: ws, m, h => by
    rw [noTerminal_cons, Bool.and_eq_true, Bool.not_eq_true'] at h
    rw [List.cons_append,
      terminalOk_cons_of_nonterminal w _ h.1 (by simp),
      terminalOk_append_error_done ws m h.2]

theorem noTerminal_map_raw (cs : List String) :
    noTerminal (cs.map SinkWrite.raw) = true := by
  simp [noTerminal, List.all_map, isTerminalW, Function.comp]

theorem openaiProcess_writes_delta : ∀ (cs : List OpenAIChunk) (x : SinkWrite),
    x ∈ (openaiProcess cs).1 → ∃ d, x = SinkWrite.event (.contentDelta d) := by
  intro cs
  induction cs with
  | nil => intro x hx; simp [openaiProcess] at hx
  | cons c rest ih =>
    intro x hx
    obtain ⟨delta, fs⟩ := c
    cases fs with
    | true =>
      cases delta with
      | none => simp [openaiProcess] at hx
      | some d =>
        by_cases hd : d = ""
        · simp [openaiProcess, hd] at hx
        · simp [openaiProcess, hd] at hx
          exact ⟨d, hx⟩
    | false =>
      cases delta with
      | none =>
        simp [openaiProcess] at hx
        exact ih x hx
      | some d =>
        by_cases hd : d = ""
        · simp [openaiProcess, hd] at hx
          exact ih x hx
        · simp [openaiProcess, hd] at hx
          rcases hx with h | h
          · exact ⟨d, h⟩
          · exact ih x h

theorem noTerminal_openaiProcess (cs : List OpenAIChunk) :
    noTerminal (openaiProcess cs).1 = true := by
  simp only [noTerminal, List.all_eq_true, Bool.not_eq_true']
  intro x hx
  obtain ⟨d, rfl⟩ := openaiProcess_writes_delta cs x hx
  rfl

/-- C1 (amended): for the OpenAI backend, every call to `stream()` emits
exactly one terminal sequence into the sink — either `[done]` alone or an
`error` event immediately followed by `[done]`; for the Claude backend the
same holds on every path that reaches the response-body streaming phase
(paths failing before streaming begins emit no events and throw instead).
The local (Ollama) backend does not satisfy the claim, see the
counterexample. -/
theorem c1_stream_exactly_one_terminal :
    (∀ (cs : List String) (e : ClaudeBodyEnd),
        terminalOk (claudeStream (.body cs e)).writes = true)
    ∧ (∀ u : OpenAIUpstream, terminalOk (openaiStream u).writes = true) := by
  constructor
  · intro cs e
    cases e with
    | ended => exact terminalOk_append_done _ (noTerminal_map_raw cs)
    | errored m => exact terminalOk_append_error_done _ m (noTerminal_map_raw cs)
  · intro u
    cases u with
    | createFail m => rfl
    | chunks cs => exact terminalOk_append_done _ (noTerminal_openaiProcess cs)
    | chunksThenFail cs m =>
      cases hb : (openaiProcess cs).2 <;> simp only [openaiStream, hb] <;>
        simp only [Bool.false_eq_true, if_false, if_true, reduceIte]
      · exact terminalOk_append_error_done _ m (noTerminal_openaiProcess cs)
      · exact terminalOk_append_done _ (noTerminal_openaiProcess cs)

/-- C1 counterexample: the Ollama backend's `stream()`, on a non-ok upstream
response, writes a single `error` event and returns — no `[DONE]` follows, so
the claimed "exactly one terminal sequence, error immediately followed by
done" fails on this execution path. -/
theorem c1_counterexample :
    (ollamaStream (.notOk "upstream failure")).writes
        = [SinkWrite.event (.error "upstream failure")]
    ∧ terminalOk (ollamaStream (.notOk "upstream failure")).writes = false := by
  constructor
  · rfl
  · rfl

theorem allCanonical_openaiProcess (cs : List OpenAIChunk) :
    ((openaiProcess cs).1).all isCanonicalW = true := by
  simp only [List.all_eq_true]
  intro x hx
  obtain ⟨d, rfl⟩ := openaiProcess_writes_delta cs x hx
  rfl

theorem allCanonical_ollama_parsed :
    ∀ (ps : List (Option String × Bool)),
      (((ps.map fun p => OllamaChunk.parsed p.1 p.2).map ollamaChunkWrites).flatten).all
          isCanonicalW = true
  | [] => rfl
  | ⟨r, d⟩ :: ps => by
    have ih := allCanonical_ollama_parsed ps
    simp only [List.map_cons, List.flatten_cons, List.all_append, ih,
      Bool.and_true]
    cases r with
    | none => cases d <;> rfl
    | some s =>
      by_cases hs : s = "" <;> cases d <;>
        simp [ollamaChunkWrites, isCanonicalW, hs]

/-- C2 (amended): the OpenAI backend writes only canonical `StreamEvent`
shapes into the sink on every path, and the Ollama backend does so whenever
every body chunk parses as JSON; but the Claude backend relays provider-native
chunks verbatim (and Ollama forwards unparsable chunks verbatim), so the
original "no provider-native chunk shape is ever written" holds only for the
OpenAI backend — see the counterexample. -/
theorem c2_canonical_writes :
    (∀ u : OpenAIUpstream, ((openaiStream u).writes).all isCanonicalW = true)
    ∧ (∀ (ps : List (Option String × Bool)) (e : OllamaUpstreamEnd),
        ((ollamaStream (.body (ps.map fun p => OllamaChunk.parsed p.1 p.2) e)).writes).all
            isCanonicalW = true) := by
  constructor
  · intro u
    cases u with
    | createFail m => rfl
    | chunks cs =>
      simp only [openaiStream, List.all_append, allCanonical_openaiProcess,
        Bool.true_and]
      rfl
    | chunksThenFail cs m =>
      cases hb : (openaiProcess cs).2 <;>
        simp only [openaiStream, hb, Bool.false_eq_true, if_false, if_true,
          reduceIte] <;>
        simp only [List.all_append, allCanonical_openaiProcess, Bool.true_and] <;>
        rfl
  · intro ps e
    cases e with
    | ended =>
      simpa only [ollamaStream, List.map_map] using allCanonical_ollama_parsed ps
    | errored m =>
      have h := allCanonical_ollama_parsed ps
      simp only [ollamaStream, List.all_append, List.map_map] at h ⊢
      simp [h]
      exact ⟨rfl, rfl⟩

/-- C2 counterexample: the Claude backend's `stream()` writes each upstream
body chunk RAW into the sink (`res.write(data)`), so a provider-native
Anthropic SSE chunk reaches the caller unconverted — the claim fails for the
Claude backend. -/
theorem c2_counterexample :
    (claudeStream (.body ["event: message_start"] .ended)).writes
        = [SinkWrite.raw "event: message_start", SinkWrite.event .done]
    ∧ ((claudeStream (.body ["event: message_start"] .ended)).writes).all
          isCanonicalW = false := by
  constructor
  · rfl
  · rfl

/-- C3 (amended): whenever no explicit `DEFAULT_AI_PROVIDER` override names a
supported backend, a non-null id returned by `getDefaultProvider` always has
its API key present in the environment (the fallback path only returns ids
from `getAvailableProviders`, whose entries are guarded by the key).  With an
explicit override the id is returned without any configuration check — see
the counterexample. -/
theorem c3_default_is_configured (env : Env) (id : String)
    (hov : explicitDefault env = none)
    (h : getDefaultProvider env = some id) :
    apiKeyConfigured env id = true := by
  unfold getDefaultProvider at h
  rw [hov] at h
  cases ha : truthyS env.anthropicApiKey with
  | true =>
    simp [getAvailableProviders, ha] at h
    subst h
    simp [apiKeyConfigured, ha]
  | false =>
    cases ho : truthyS env.openaiApiKey with
    | true =>
      simp [getAvailableProviders, ha, ho] at h
      subst h
      simp [apiKeyConfigured, ho]
    | false =>
      simp [getAvailableProviders, ha, ho] at h

def envC3w : Env := { baseEnv with anthropicApiKey := some "sk-ant-test" }

theorem c3_witness :
    explicitDefault envC3w = none
    ∧ getDefaultProvider envC3w = some "anthropic"
    ∧ apiKeyConfigured envC3w "anthropic" = true :=
  ⟨by decide, by decide,
   c3_default_is_configured envC3w "anthropic" (by decide) (by decide)⟩

def envC3ce : Env := { baseEnv with defaultAiProvider := some "openai" }

/-- C3 counterexample: with `DEFAULT_AI_PROVIDER=openai` and no
`OPENAI_API_KEY`, `getDefaultProvider` returns `'openai'` although that
provider's required API key is absent — the claim fails as stated. -/
theorem c3_counterexample :
    getDefaultProvider envC3ce = some "openai"
    ∧ truthyS envC3ce.openaiApiKey = false
    ∧ apiKeyConfigured envC3ce "openai" = false := by decide

theorem mem_getAvailableProviders (env : Env) (d : ProviderDescriptor)
    (hd : d ∈ getAvailableProviders env) :
    (d.id = "anthropic" ∧ d.displayName = "Anthropic")
    ∨ (d.id = "openai" ∧ d.displayName = "OpenAI") := by
  cases ha : truthyS env.anthropicApiKey <;>
    cases ho : truthyS env.openaiApiKey <;>
      simp [getAvailableProviders, ha, ho] at hd
  · subst hd; simp
  · subst hd; simp
  · rcases hd with rfl | rfl <;> simp

/-- C4 (amended): for every descriptor returned by `getAvailableProviders`,
`create(id, config)` succeeds (never the unknown-provider error); the created
provider's `getName()` equals the descriptor's `displayName` for the `openai`
descriptor, but for the `anthropic` descriptor (displayName `'Anthropic'`)
`getName()` is `'Claude'` — see the counterexample. -/
theorem c4_roundtrip (env : Env) (cfg : ProviderConfig) (d : ProviderDescriptor)
    (hd : d ∈ getAvailableProviders env) :
    (∃ p, create d.id cfg = Except.ok p)
    ∧ (d.id = "openai" →
        ∃ p, create d.id cfg = Except.ok p ∧ getName p = d.displayName)
    ∧ (d.id = "anthropic" →
        ∃ p, create d.id cfg = Except.ok p ∧ getName p = "Claude"
          ∧ d.displayName = "Anthropic") := by
  have hca : create "anthropic" cfg = Except.ok ⟨"Claude", cfg⟩ := by
    have hna : jsNormalize "anthropic" = "anthropic" := by decide
    simp [create, hna]
  have hco : create "openai" cfg = Except.ok ⟨"OpenAI", cfg⟩ := by
    have hno : jsNormalize "openai" = "openai" := by decide
    simp [create, hno]
  rcases mem_getAvailableProviders env d hd with ⟨hid, hdn⟩ | ⟨hid, hdn⟩ <;>
    rw [hid, hdn]
  · exact ⟨⟨⟨"Claude", cfg⟩, hca⟩,
      fun h => absurd h (by decide),
      fun _ => ⟨⟨"Claude", cfg⟩, hca, rfl, rfl⟩⟩
  · exact ⟨⟨⟨"OpenAI", cfg⟩, hco⟩,
      fun _ => ⟨⟨"OpenAI", cfg⟩, hco, rfl⟩,
      fun h => absurd h (by decide)⟩

def envC4w : Env := { baseEnv with openaiApiKey := some "sk-openai-test" }

def dOpenAIw : ProviderDescriptor :=
  { id := "openai", name := "OpenAI", displayName := "OpenAI",
    models := openaiSupportedModels, defaultModel := "gpt-4o",
    configured := true }

def cfg0 : ProviderConfig := ⟨none, none, none⟩

theorem c4_witness :
    dOpenAIw ∈ getAvailableProviders envC4w
    ∧ ((∃ p, create dOpenAIw.id cfg0 = Except.ok p)
      ∧ (dOpenAIw.id = "openai" →
          ∃ p, create dOpenAIw.id cfg0 = Except.ok p
            ∧ getName p = dOpenAIw.displayName)
      ∧ (dOpenAIw.id = "anthropic" →
          ∃ p, create dOpenAIw.id cfg0 = Except.ok p ∧ getName p = "Claude"
            ∧ dOpenAIw.displayName = "Anthropic")) :=
  ⟨by decide, c4_roundtrip envC4w cfg0 dOpenAIw (by decide)⟩

def envC4ce : Env := { baseEnv with anthropicApiKey := some "sk-ant-test" }

/-- C4 counterexample: with only `ANTHROPIC_API_KEY` set, the listing returns
the descriptor `(id='anthropic', displayName='Anthropic')`, `create` on that
id succeeds, but the created provider's `getName()` is `'Claude'`, not
`'Anthropic'` — the round-trip naming claim fails as stated. -/
theorem c4_counterexample :
    (getAvailableProviders envC4ce).map (fun d => (d.id, d.displayName))
        = [("anthropic", "Anthropic")]
    ∧ ((create "anthropic" cfg0).toOption.map getName) = some "Claude"
    ∧ (("Claude" : String) == "Anthropic") = false := by decide

/-- C10 (confirmed): every descriptor returned by `getAvailableProviders` has
`configured = true`, the returned ids form a subsequence of the fixed order
`["anthropic", "openai"]`, and `'ollama'` never appears in the listing, for
every environment. -/
theorem c10_listing_shape (env : Env) :
    ((getAvailableProviders env).all (fun d => d.configured) = true)
    ∧ ((getAvailableProviders env).map (fun d => d.id)).Sublist
        ["anthropic", "openai"]
    ∧ ((getAvailableProviders env).map (fun d => d.id)).contains "ollama"
        = false := by
  refine ⟨?_, ?_, ?_⟩ <;>
    cases ha : truthyS env.anthropicApiKey <;>
      cases ho : truthyS env.openaiApiKey <;>
        simp [getAvailableProviders, ha, ho] <;> decide

/-- C5 (confirmed): for every backend's `formatPrompt` and every non-empty
`visionAnalysis`, the article text embedded in the payload is the
`'## Image Analysis Results'` section, the vision text, the
`'## Article Text'` section and the article text, in that order, and the
embedded string is the combined (vision-prefixed) text truncated to at most
50,000 characters — truncation applied after the concatenation. -/
theorem c5_vision_prefixed_truncation (t v : String) (h : v ≠ "") :
    claudeFormatPrompt t (some v)
        = claudePromptHead
          ++ jsSub ("## Image Analysis Results\n\n" ++ v
              ++ "\n\n## Article Text\n\n" ++ t) 50000
          ++ promptTail
    ∧ openaiUserPrompt t (some v)
        = openaiPromptHead
          ++ jsSub ("## Image Analysis Results\n\n" ++ v
              ++ "\n\n## Article Text\n\n" ++ t) 50000
          ++ promptTail
    ∧ ollamaFormatPrompt t (some v)
        = ollamaPromptHead
          ++ jsSub ("## Image Analysis Results\n\n" ++ v
              ++ "\n\n## Article Text\n\n" ++ t) 50000
          ++ promptTail
    ∧ (jsSub ("## Image Analysis Results\n\n" ++ v
        ++ "\n\n## Article Text\n\n" ++ t) 50000).length ≤ 50000 := by
  have hv : (v == "") = false := by simp [h]
  refine ⟨?_, ?_, ?_, List.length_take_le 50000 _⟩ <;>
    simp [claudeFormatPrompt, openaiUserPrompt, ollamaFormatPrompt,
      finalTextOf, hv]

theorem c5_witness :
    claudeFormatPrompt "a" (some "b")
        = claudePromptHead
          ++ jsSub ("## Image Analysis Results\n\n" ++ "b"
              ++ "\n\n## Article Text\n\n" ++ "a") 50000
          ++ promptTail
    ∧ openaiUserPrompt "a" (some "b")
        = openaiPromptHead
          ++ jsSub ("## Image Analysis Results\n\n" ++ "b"
              ++ "\n\n## Article Text\n\n" ++ "a") 50000
          ++ promptTail
    ∧ ollamaFormatPrompt "a" (some "b")
        = ollamaPromptHead
          ++ jsSub ("## Image Analysis Results\n\n" ++ "b"
              ++ "\n\n## Article Text\n\n" ++ "a") 50000
          ++ promptTail
    ∧ (jsSub ("## Image Analysis Results\n\n" ++ "b"
        ++ "\n\n## Article Text\n\n" ++ "a") 50000).length ≤ 50000 :=
  c5_vision_prefixed_truncation "a" "b" (by decide)

/-- C6 (confirmed): `OllamaProvider.isConfigured` is true exactly when the
base endpoint is truthy and at least one of `OLLAMA_TEXT_MODEL` /
`OLLAMA_VISION_MODEL` is truthy; in particular true for an endpoint with only
a vision model, true for an endpoint with only a text model, and false
without an endpoint regardless of models. -/
theorem c6_ollama_isConfigured :
    (∀ (b : Option String) (env : Env),
        ollamaIsConfigured b env
          = (truthyS b
              && (truthyS env.ollamaTextModel || truthyS env.ollamaVisionModel)))
    ∧ ollamaIsConfigured (some "http://localhost:11434")
        { baseEnv with ollamaVisionModel := some "qwen3-vl" } = true
    ∧ ollamaIsConfigured (some "http://localhost:11434")
        { baseEnv with
            ollamaTextModel := some "Qwen3-14B-Claude-Sonnet-4.5-Reasoning-Distill-GGUF-32768-context:latest" }
        = true
    ∧ (∀ env : Env, ollamaIsConfigured none env = false) := by
  refine ⟨?_, by decide, by decide, fun env => rfl⟩
  intro b env
  cases hb : truthyS b <;> simp [ollamaIsConfigured, hb]

/-- C7 (confirmed): `OpenAIProvider.getVisionModel` returns the configured
model unchanged when it is in the fixed vision-capable allow-list, and the
fixed fallback `'gpt-4o'` otherwise; `'gpt-4-0125-preview'` yields the
fallback while `'gpt-4o'` yields itself. -/
theorem c7_getVisionModel (m : String) :
    (openaiVisionModels.contains m = true → getVisionModel m = m)
    ∧ (openaiVisionModels.contains m = false → getVisionModel m = "gpt-4o")
    ∧ getVisionModel "gpt-4-0125-preview" = "gpt-4o"
    ∧ getVisionModel "gpt-4o" = "gpt-4o" := by
  refine ⟨?_, ?_, by decide, by decide⟩
  · intro h
    have hm : m ∈ openaiVisionModels := by simpa using h
    simp [getVisionModel, hm]
  · intro h
    have hm : m ∉ openaiVisionModels := by simpa using h
    simp [getVisionModel, hm]

theorem c7_witness :
    getVisionModel "gpt-4o" = "gpt-4o"
    ∧ getVisionModel "gpt-4-0125-preview" = "gpt-4o" :=
  ⟨(c7_getVisionModel "gpt-4o").1 (by decide),
   (c7_getVisionModel "gpt-4-0125-preview").2.1 (by decide)⟩

/-- C8 (confirmed): `ClaudeProvider.analyzeVision` with an absent, non-array,
or empty `images` argument fails with the `'Missing or invalid images array'`
error; in the embedding the failing branch returns before any
`ClaudeVisionCall` request value is constructed, i.e. before any network
call is issued. -/
theorem c8_claude_vision_invalid_input
    (model articleText : String) (prompt : Option String) :
    claudeAnalyzeVision model .absent articleText prompt
        = .error "Missing or invalid images array"
    ∧ claudeAnalyzeVision model .notArray articleText prompt
        = .error "Missing or invalid images array"
    ∧ claudeAnalyzeVision model (.arr []) articleText prompt
        = .error "Missing or invalid images array" :=
  ⟨rfl, rfl, rfl⟩

/-- C9 (confirmed): `OllamaProvider.analyzeVision` is total and
input-independent: for every images argument (including absent or empty) and
every article text it returns, without failing and without any network
activity in its body, the fixed placeholder whose `analysisText` is the
constant string, whose `confidence` is `'low'`, and which carries no
`tokensUsed` field. -/
theorem c9_ollama_vision_placeholder (i1 i2 : ImagesArg) (a1 a2 : String) :
    ollamaAnalyzeVision i1 a1 = ollamaAnalyzeVision i2 a2
    ∧ (ollamaAnalyzeVision i1 a1).analysisText
        = "Vision analysis is not supported with the current Ollama configuration."
    ∧ (ollamaAnalyzeVision i1 a1).confidence = some .low
    ∧ (ollamaAnalyzeVision i1 a1).tokensUsed = none :=
  ⟨rfl, rfl, rfl, rfl⟩
